import Mathlib

/-!
Shallow embedding of the FinBuddy transaction-scoring engine
(`back/app/scoring.py`, `back/app/transactions.py`) together with proofs
about the properties its specification states.

Numeric values that Python holds as `float`/`int` are modelled as `ℚ`
(resp. `ℤ`), with Python's `round(x, 2)` modelled exactly as
round-half-to-even on hundredths.  The one transcendental ingredient,
`math.log1p`, is carried as an abstract function (`LogModel`) pinned down
at the only point where a concrete evaluation needs it (`log1p 0 = 0`,
true of the mathematical log1p); every clamping argument below is
independent of it.
-/

/-- Python's `round` to an integer: round half to even (banker's rounding). -/
def bankersRound (y : ℚ) : ℤ :=
  if y - ⌊y⌋ < 1/2 then ⌊y⌋
  else if 1/2 < y - ⌊y⌋ then ⌊y⌋ + 1
  else if 2 ∣ ⌊y⌋ then ⌊y⌋ else ⌊y⌋ + 1

/-- Python's `round(x, 2)`: round to hundredths, half to even. -/
def pyRound2 (x : ℚ) : ℚ := (bankersRound (100 * x) : ℚ) / 100

theorem floor_le_bankersRound (y : ℚ) : ⌊y⌋ ≤ bankersRound y := by
  unfold bankersRound
  split_ifs <;> omega

theorem bankersRound_le_ceil (y : ℚ) : bankersRound y ≤ ⌈y⌉ := by
  unfold bankersRound
  have hfc : ⌊y⌋ ≤ ⌈y⌉ := Int.floor_le_ceil y
  have hstep : (⌊y⌋ : ℚ) < y → ⌊y⌋ + 1 ≤ ⌈y⌉ := by
    intro h
    have h2 : (⌊y⌋ : ℚ) < (⌈y⌉ : ℚ) := lt_of_lt_of_le h (Int.le_ceil y)
    exact_mod_cast Int.add_one_le_iff.mpr (by exact_mod_cast h2)
  split_ifs with h1 h2 h3
  · exact hfc
  · refine hstep ?_
    have : (0 : ℚ) < y - ⌊y⌋ := lt_trans (by norm_num) h2
    linarith
  · exact hfc
  · refine hstep ?_
    have h4 : y - ⌊y⌋ = 1/2 := le_antisymm (not_lt.mp h2) (not_lt.mp h1)
    linarith

theorem bankersRound_le (y : ℚ) (z : ℤ) (h : y ≤ (z : ℚ)) : bankersRound y ≤ z :=
  le_trans (bankersRound_le_ceil y) (Int.ceil_le.mpr h)

theorem le_bankersRound (y : ℚ) (z : ℤ) (h : (z : ℚ) ≤ y) : z ≤ bankersRound y :=
  le_trans (Int.le_floor.mpr h) (floor_le_bankersRound y)

theorem pyRound2_le (x : ℚ) (z : ℤ) (h : x ≤ (z : ℚ)) : pyRound2 x ≤ (z : ℚ) := by
  unfold pyRound2
  rw [div_le_iff₀ (by norm_num : (0:ℚ) < 100)]
  have : bankersRound (100 * x) ≤ 100 * z := by
    refine bankersRound_le _ _ ?_
    push_cast
    linarith
  calc ((bankersRound (100 * x) : ℤ) : ℚ) ≤ ((100 * z : ℤ) : ℚ) := by exact_mod_cast this
    _ = (z : ℚ) * 100 := by push_cast; ring

theorem le_pyRound2 (x : ℚ) (z : ℤ) (h : (z : ℚ) ≤ x) : (z : ℚ) ≤ pyRound2 x := by
  unfold pyRound2
  rw [le_div_iff₀ (by norm_num : (0:ℚ) < 100)]
  have : (100 * z : ℤ) ≤ bankersRound (100 * x) := by
    refine le_bankersRound _ _ ?_
    push_cast
    linarith
  calc (z : ℚ) * 100 = ((100 * z : ℤ) : ℚ) := by push_cast; ring
    _ ≤ _ := by exact_mod_cast this

/-- Bounds for the ubiquitous `round(min(10, max(0, s)), 2)` pattern. -/
theorem roundClamp_mem (s : ℚ) :
    0 ≤ pyRound2 (min 10 (max 0 s)) ∧ pyRound2 (min 10 (max 0 s)) ≤ 100 := by
  constructor
  · have h0 : ((0 : ℤ) : ℚ) ≤ min 10 (max 0 s) :=
      le_min (by norm_num) (by exact_mod_cast le_max_left 0 s)
    have := le_pyRound2 (min 10 (max 0 s)) 0 h0
    exact_mod_cast this
  · have h1 : min 10 (max 0 s) ≤ ((10 : ℤ) : ℚ) := by
      have := min_le_left (10 : ℚ) (max 0 s)
      exact_mod_cast this
    have := pyRound2_le (min 10 (max 0 s)) 10 h1
    calc pyRound2 (min 10 (max 0 s)) ≤ ((10 : ℤ) : ℚ) := this
      _ ≤ 100 := by norm_num

/-- Python's substring test `pat in s` on character lists. -/
def hasSubChars (pat : List Char) : List Char → Bool
  | [] => pat.isEmpty
  | c :: rest => pat.isPrefixOf (c :: rest) || hasSubChars pat rest

/-- Python's `pat in s` for strings. -/
def pyIn (pat s : String) : Bool := hasSubChars pat.toList s.toList

/-- Truthiness of an optional string field (`None` and `""` are falsy). -/
def truthyStr (o : Option String) : Bool :=
  match o with
  | some s => !s.isEmpty
  | none => false

/-- Digit-run parser used by `pyInt`. -/
def digitsToNat (cs : List Char) : Option ℕ :=
  if !cs.isEmpty && cs.all Char.isDigit then
    some (cs.foldl (fun a c => a * 10 + (c.toNat - 48)) 0)
  else none

/-- Python's `int(str)` conversion: optional surrounding whitespace, an
optional sign, then decimal digits; anything else raises `ValueError`
(modelled as `none`).  (Underscores between digits and non-ASCII digits,
which CPython also accepts, do not occur in the data this repository
feeds to `int` and are not modelled.) -/
def pyInt (s : String) : Option ℤ :=
  match ((s.toList.dropWhile Char.isWhitespace).reverse.dropWhile Char.isWhitespace).reverse with
  | '-' :: rest => (digitsToNat rest).map (fun n => -(n : ℤ))
  | '+' :: rest => (digitsToNat rest).map (fun n => (n : ℤ))
  | cs => (digitsToNat cs).map (fun n => (n : ℤ))

/-- The transaction record consumed by both scorers, i.e. the dict shaped
by `get_last_transactions` in `back/app/transactions.py` (absent keys are
modelled by the corresponding `.get` default: `Option` where the scorers
distinguish absence, otherwise the default value itself). -/
structure Tx where
  hash : String
  gasUsed : ℤ
  gasLimit : ℤ
  gasPrice : ℤ
  valueEth : ℚ
  profitEth : Option ℚ
  /-- the `"type"` key (0 = legacy, 2 = EIP-1559). -/
  txType : ℤ
  transaction_types : Option (List String)
  status : Option String
  isVerifiedContract : Bool
  isKnownProtocol : Bool
  isScam : Bool
  /-- the `"to"` key; `tx.get("to", "")` makes absence the empty string. -/
  toAddr : String
  created_contract : Bool
  has_error_in_internal_transactions : Bool
  maxPriorityFeePerGas : ℤ

/-- `math.log1p` as an abstract function: the engine only feeds it
non-negative rationals, and the only fact concrete evaluations need is
`log1p 0 = 0`, which holds for the mathematical function. -/
structure LogModel where
  log1p : ℚ → ℚ
  log1p_zero : log1p 0 = 0

/-- Stub model used for concrete evaluations whose code path never feeds
`log1p` a non-zero argument. -/
def logZero : LogModel := ⟨fun _ => 0, rfl⟩

/-- `gasUsed / gasLimit if gasLimit > 0 else 1` — the gas-utilization
ratio shared verbatim by `TransactionScorer.technical_efficiency_score`
and `EnhancedTransactionScorer.calculate_enhanced_technical_score`. -/
def gas_ratio (tx : Tx) : ℚ :=
  if tx.gasLimit > 0 then (tx.gasUsed : ℚ) / (tx.gasLimit : ℚ) else 1

namespace TransactionScorer

/-- `gas_cost_eth` local of `economic_efficiency_score` (scoring.py:11). -/
def gas_cost_eth (tx : Tx) : ℚ :=
  (tx.gasUsed : ℚ) * (tx.gasPrice : ℚ) / 1000000000000000000

/-- `roi` local of `economic_efficiency_score` (scoring.py:16-19). -/
def roi (tx : Tx) : ℚ :=
  if tx.valueEth > 0 then tx.profitEth.getD 0 / tx.valueEth else 0

/-- `gas_efficiency` local of `economic_efficiency_score` (scoring.py:22-25). -/
def gas_efficiency (tx : Tx) : ℚ :=
  if gas_cost_eth tx > 0 then tx.valueEth / gas_cost_eth tx else 0

/-- `roi_score` local of `economic_efficiency_score` (scoring.py:28). -/
def roi_score (tx : Tx) : ℚ := max 0 (min 10 (5 + roi tx * 2))

/-- `gas_score` local of `economic_efficiency_score` (scoring.py:31). -/
def gas_score (m : LogModel) (tx : Tx) : ℚ :=
  max 0 (min 10 (m.log1p (gas_efficiency tx)))

/-- `TransactionScorer.economic_efficiency_score` (scoring.py:9-33). -/
def economic_efficiency_score (m : LogModel) (tx : Tx) : ℚ :=
  pyRound2 (roi_score tx * 0.6 + gas_score m tx * 0.4)

/-- `efficiency_score` local of `technical_efficiency_score` (scoring.py:39-44). -/
def efficiency_score (tx : Tx) : ℚ :=
  if 0.7 ≤ gas_ratio tx ∧ gas_ratio tx ≤ 0.9 then 10
  else if (0.5 ≤ gas_ratio tx ∧ gas_ratio tx < 0.7) ∨ (0.9 < gas_ratio tx ∧ gas_ratio tx ≤ 1.0) then 7
  else 4

/-- `eip_1559_bonus` local of `technical_efficiency_score` (scoring.py:48-49). -/
def eip_1559_bonus (tx : Tx) : ℚ :=
  if (tx.gasPrice : ℚ) / 1000000000 < 20 then 2
  else if (tx.gasPrice : ℚ) / 1000000000 < 50 then 1 else 0

/-- `type_bonus` local of `technical_efficiency_score` (scoring.py:52-53). -/
def type_bonus (tx : Tx) : ℚ := if tx.txType = 2 then 1 else 0

/-- `TransactionScorer.technical_efficiency_score` (scoring.py:35-55). -/
def technical_efficiency_score (tx : Tx) : ℚ :=
  pyRound2 (min 10 (efficiency_score tx + eip_1559_bonus tx + type_bonus tx))

/-- `TransactionScorer.risk_security_score` (scoring.py:57-96). -/
def risk_security_score (tx : Tx) : ℚ :=
  let s1 : ℚ := 5 + (if tx.isVerifiedContract then 3 else 0)
  let s2 : ℚ := s1 + (if tx.isKnownProtocol then 2 else 0)
  let s3 : ℚ := s2 - (if tx.isScam then 8 else 0)
  let s4 : ℚ :=
    if tx.toAddr ≠ "" then
      let t1 := s3 - (if pyIn "0x000" tx.toAddr then 5 else 0)
      t1 - (if tx.toAddr.startsWith "0x00000000000" then 3 else 0)
    else s3
  let s5 : ℚ :=
    if tx.status = some "ok" then s4 + 1
    else if tx.status = some "failed" then s4 - 2 else s4
  let s6 : ℚ := s5 - (if tx.created_contract then 1 else 0)
  let s7 : ℚ := s6 - (if tx.has_error_in_internal_transactions then 2 else 0)
  max 0 (min 10 s7)

/-- `TransactionScorer.strategic_alignment_score` (scoring.py:98-115). -/
def strategic_alignment_score (tx : Tx) : ℚ :=
  let tx_types := tx.transaction_types.getD ["coin_transfer"]
  let t := tx_types.headD "coin_transfer"
  if t = "stake" ∨ t = "lp_deposit" ∨ t = "yield_farming" then 9
  else if t = "swap" ∨ t = "coin_transfer" ∨ t = "defi_interaction" then 7
  else if t = "nft_mint" ∨ t = "nft_transfer" then 5
  else if t = "contract_interaction" ∨ t = "token_transfer" then 6
  else if t = "speculative" ∨ t = "gambling" then 3
  else 5

/-- The four sub-scores as returned in the `"scores"` sub-dict. -/
structure SubScores where
  economic : ℚ
  technical : ℚ
  risk_security : ℚ
  strategic : ℚ
deriving DecidableEq

/-- The dict returned by `TransactionScorer.score_transaction`. -/
structure LegacyScoredTx where
  tx_hash : String
  scores : SubScores
  final_score : ℚ
  final_score_no_risk : ℚ
deriving DecidableEq

/-- `TransactionScorer.score_transaction` (scoring.py:117-138). -/
def score_transaction (m : LogModel) (tx : Tx) : LegacyScoredTx :=
  let economic := economic_efficiency_score m tx
  let technical := technical_efficiency_score tx
  let risk := risk_security_score tx
  let strategic := strategic_alignment_score tx
  { tx_hash := tx.hash
    scores := ⟨economic, technical, risk, strategic⟩
    final_score := pyRound2 (economic * 0.3 + technical * 0.2 + risk * 0.3 + strategic * 0.2)
    final_score_no_risk := pyRound2 (economic * 0.4 + technical * 0.3 + strategic * 0.3) }

end TransactionScorer

/-- The address-info dict fetched from `/api/v2/addresses/{address}`,
restricted to the keys the enhanced scorer reads.  A `none` wrapping of
the whole record models both "no address info fetched" and the empty dict
`{}` (both falsy in the Python `if address_info:` guards). -/
structure AddressInfo where
  /-- the `"balance"` key — Blockscout serves it as a decimal string and
  the scorer parses it with `int(...)`. -/
  balance : Option String
  is_verified : Bool
  name : Option String
  public_tags : List String
  is_scam : Bool
  reputation : Option String
  transactions_count : ℤ

/-- One entry of the token-transfer list; only the `"timestamp"` key and
the nested `token.symbol` are ever read. -/
structure TokenTransfer where
  timestamp : Option String
  tokenSymbol : String

/-- Transaction detail dict; only the `"method"` key is read. -/
structure TxDetails where
  method : Option String

/-- Interpreter verdict dict; only `"classification"` and `"confidence"`
are read by the strategic scorer (the other keys are passed through to the
output untouched). -/
structure InterpreterData where
  classification : Option String
  confidence : Option ℚ

/-- The `api_data` bundle assembled by
`BlockscoutAPIClient.get_comprehensive_transaction_data`. -/
structure ApiData where
  address_info : Option AddressInfo
  token_transfers : List TokenTransfer
  transaction_details : Option TxDetails
  interpreter_data : Option InterpreterData
  transaction_logs : List String

namespace EnhancedTransactionScorer

open TransactionScorer (SubScores)

/-- The dict returned by `score_transaction_enhanced`, restricted to the
keys the specification's claims are about (`interpreter_analysis` and
`enhanced_data` are verbatim passthroughs of the inputs). -/
structure EnhancedScoredTx where
  tx_hash : String
  scores : SubScores
  final_score : ℚ
  final_score_no_risk : ℚ
  risk_level : String
deriving DecidableEq

/-- Tail of `calculate_enhanced_economic_score` after the balance branch
(token-activity step, fee-optimization step, clamp and round;
scoring.py:176-195). -/
def econ_finish (tx : Tx) (token_transfers : List TokenTransfer) (s : ℚ) : ℚ :=
  let s2 : ℚ :=
    if !token_transfers.isEmpty then
      let recent_transfers := (token_transfers.filter (fun t => truthyStr t.timestamp)).length
      s + (if recent_transfers > 10 then 1 else if recent_transfers < 2 then -0.5 else 0)
    else s
  let gas_price_gwei : ℚ := (tx.gasPrice : ℚ) / 1000000000
  let s3 : ℚ := s2 +
    (if gas_price_gwei < 5 then 3
     else if gas_price_gwei < 15 then 2
     else if gas_price_gwei < 30 then 1
     else if gas_price_gwei > 100 then -2 else 0)
  pyRound2 (min 10 (max 0 s3))

/-- `EnhancedTransactionScorer.calculate_enhanced_economic_score`
(scoring.py:150-195).  The result is `Except` because
`int(address_info.get("balance", "0"))` raises `ValueError` when the
balance string is not numeric. -/
def calculate_enhanced_economic_score (m : LogModel) (tx : Tx)
    (address_info : Option AddressInfo) (token_transfers : List TokenTransfer) :
    Except String ℚ :=
  let gas_cost_eth : ℚ := (tx.gasUsed : ℚ) * (tx.gasPrice : ℚ) / 1000000000000000000
  let s1 : ℚ :=
    if gas_cost_eth > 0 then min 10 (m.log1p (tx.valueEth / gas_cost_eth) * 2) else 5
  match address_info with
  | none => Except.ok (econ_finish tx token_transfers s1)
  | some ai =>
    match pyInt (ai.balance.getD "0") with
    | none => Except.error "ValueError: invalid literal for int() with base 10"
    | some balance_wei =>
      let balance_eth : ℚ := (balance_wei : ℚ) / 1000000000000000000
      let d : ℚ :=
        if balance_eth > 10 then 1
        else if balance_eth > 1 then 0.5
        else if balance_eth < 0.01 then -0.5 else 0
      Except.ok (econ_finish tx token_transfers (s1 + d))

/-- `EnhancedTransactionScorer.calculate_enhanced_technical_score`
(scoring.py:197-255). -/
def calculate_enhanced_technical_score (tx : Tx) (tx_details : Option TxDetails)
    (tx_logs : List String) : ℚ :=
  let r := gas_ratio tx
  let s1 : ℚ := 5 +
    (if 0.7 ≤ r ∧ r ≤ 0.9 then 3
     else if (0.5 ≤ r ∧ r < 0.7) ∨ (0.9 < r ∧ r ≤ 1.0) then 1.5
     else if r < 0.5 then -1
     else if r > 1.0 then -3 else 0)
  let s2 : ℚ :=
    if tx.txType = 2 then
      let s' := s1 + 2
      if tx.maxPriorityFeePerGas > 0 then
        let priority_fee_gwei : ℚ := (tx.maxPriorityFeePerGas : ℚ) / 1000000000
        s' + (if priority_fee_gwei < 1 then 2
              else if priority_fee_gwei < 3 then 1
              else if priority_fee_gwei > 10 then -1 else 0)
      else s'
    else s1
  let s3 : ℚ :=
    match tx_details with
    | some td =>
      match td.method with
      | some mth =>
        if mth ≠ "" ∧ mth ≠ "0x" then
          if mth.length > 20 then s2 + 1
          else if mth.length > 10 then s2 + 0.5 else s2
        else s2
      | none => s2
    | none => s2
  let s4 : ℚ :=
    if tx_logs ≠ [] then
      if tx_logs.length > 5 then s3 + 1
      else if tx_logs.length = 0 then s3 + 0.5 else s3
    else s3
  let s5 : ℚ :=
    if tx.status = some "ok" then s4 + 1
    else if tx.status = some "failed" then s4 - 3 else s4
  pyRound2 (min 10 (max 0 s5))

/-- `EnhancedTransactionScorer.calculate_enhanced_risk_score`
(scoring.py:257-323); `tx_details` is accepted and never read, exactly as
in the source. -/
def calculate_enhanced_risk_score (tx : Tx) (address_info : Option AddressInfo)
    (tx_details : Option TxDetails) : ℚ :=
  let _ := tx_details
  let s1 : ℚ := 5 +
    (if tx.isVerifiedContract then 3
     else if (match address_info with | some a => a.is_verified | none => false) then 3 else 0)
  let s2 : ℚ := s1 +
    (if tx.isKnownProtocol then 2
     else if (match address_info with
              | some a => truthyStr a.name || !a.public_tags.isEmpty
              | none => false) then 2 else 0)
  let s3 : ℚ := s2 -
    (if tx.isScam then 8
     else if (match address_info with | some a => a.is_scam | none => false) then 8 else 0)
  let s4 : ℚ := s3 +
    (match address_info with
     | some a =>
       let reputation := a.reputation.getD "unknown"
       if reputation = "trusted" then 3
       else if reputation = "suspicious" then -2
       else if reputation = "scam" then -8 else 0
     | none => 0)
  let s5 : ℚ :=
    if tx.status = some "ok" then s4 + 1
    else if tx.status = some "failed" then s4 - 3 else s4
  let s6 : ℚ := s5 - (if tx.created_contract then 2 else 0)
  let s7 : ℚ := s6 - (if tx.has_error_in_internal_transactions then 3 else 0)
  let s8 : ℚ := s7 +
    (match address_info with
     | some a =>
       if a.transactions_count > 1000 then 1
       else if a.transactions_count < 5 then -1 else 0
     | none => 0)
  let s9 : ℚ :=
    if tx.toAddr ≠ "" then
      let t1 := s8 - (if pyIn "0x000" tx.toAddr then 5 else 0)
      t1 - (if tx.toAddr.startsWith "0x00000000000" then 3 else 0)
    else s8
  pyRound2 (min 10 (max 0 s9))

/-- The `type_scores` dict of `calculate_enhanced_strategic_score`
(scoring.py:356-371), with the dict's `.get(tx_type, 5.0)` default. -/
def type_scores (s : String) : ℚ :=
  if s = "stake" then 9
  else if s = "lp_deposit" then 9
  else if s = "yield_farming" then 9
  else if s = "defi_interaction" then 8
  else if s = "swap" then 7
  else if s = "coin_transfer" then 6
  else if s = "token_transfer" then 6
  else if s = "contract_interaction" then 6
  else if s = "nft_mint" then 5
  else if s = "nft_transfer" then 5
  else if s = "speculative" then 3
  else if s = "gambling" then 2
  else 5

/-- Stablecoin symbols recognized by the strategic scorer. -/
def stableSyms : List String := ["USDC", "USDT", "DAI", "BUSD", "FRAX"]

/-- DeFi-token symbols recognized by the strategic scorer. -/
def defiSyms : List String := ["UNI", "AAVE", "COMP", "MKR", "CRV", "SUSHI"]

/-- Token-transfer category adjustment of
`calculate_enhanced_strategic_score` (scoring.py:374-394). -/
def tokenAdjust (token_transfers : List TokenTransfer) (s : ℚ) : ℚ :=
  let first10 := token_transfers.take 10
  let stable_tokens :=
    (first10.filter (fun t => stableSyms.contains t.tokenSymbol.toUpper)).length
  let defi_tokens :=
    (first10.filter (fun t =>
      !stableSyms.contains t.tokenSymbol.toUpper &&
      defiSyms.contains t.tokenSymbol.toUpper)).length
  let speculative_tokens :=
    (first10.filter (fun t =>
      !stableSyms.contains t.tokenSymbol.toUpper &&
      !defiSyms.contains t.tokenSymbol.toUpper)).length
  let s1 : ℚ := if defi_tokens > 0 then s + min 2 ((defi_tokens : ℚ) * 0.5) else s
  let s2 : ℚ := if stable_tokens > 0 then s1 + min 1 ((stable_tokens : ℚ) * 0.2) else s1
  if speculative_tokens > 3 then s2 - min 2 (((speculative_tokens : ℚ) - 3) * 0.5) else s2

/-- `EnhancedTransactionScorer.calculate_enhanced_strategic_score`
(scoring.py:325-396). -/
def calculate_enhanced_strategic_score (tx : Tx) (token_transfers : List TokenTransfer)
    (interpreter_data : Option InterpreterData) : ℚ :=
  let s1 : ℚ := 5 +
    (match interpreter_data with
     | some interp =>
       let classification := (interp.classification.getD "").toLower
       let cDelta : ℚ :=
         if pyIn "defi" classification || pyIn "swap" classification then 2
         else if pyIn "staking" classification || pyIn "yield" classification then 3
         else if pyIn "nft" classification then 1
         else if pyIn "gambling" classification || pyIn "casino" classification then -2
         else if pyIn "scam" classification || pyIn "suspicious" classification then -4
         else 0
       let confidence := interp.confidence.getD 0
       cDelta + (if confidence > 0.8 then 1 else if confidence < 0.3 then -0.5 else 0)
     | none => 0)
  let tx_type := (tx.transaction_types.getD ["coin_transfer"]).headD "coin_transfer"
  let base_score := type_scores tx_type
  let s2 : ℚ := max s1 base_score
  let s3 : ℚ := if !token_transfers.isEmpty then tokenAdjust token_transfers s2 else s2
  pyRound2 (min 10 (max 0 s3))

/-- `EnhancedTransactionScorer.score_transaction_enhanced`
(scoring.py:398-459). -/
def score_transaction_enhanced (m : LogModel) (tx : Tx) (api : ApiData) :
    Except String EnhancedScoredTx :=
  match calculate_enhanced_economic_score m tx api.address_info api.token_transfers with
  | Except.error e => Except.error e
  | Except.ok economic =>
    let technical := calculate_enhanced_technical_score tx api.transaction_details api.transaction_logs
    let risk := calculate_enhanced_risk_score tx api.address_info api.transaction_details
    let strategic := calculate_enhanced_strategic_score tx api.token_transfers api.interpreter_data
    Except.ok
      { tx_hash := tx.hash
        scores := ⟨economic, technical, risk, strategic⟩
        final_score := pyRound2 (economic * 0.3 + technical * 0.2 + risk * 0.3 + strategic * 0.2)
        final_score_no_risk := pyRound2 (economic * 0.4 + technical * 0.3 + strategic * 0.3)
        risk_level := if risk < 3 then "high" else if risk < 6 then "medium" else "low" }

end EnhancedTransactionScorer

namespace BlockscoutAPIClient

/-- A raw block item as returned by `get_recent_blocks`; the builder reads
three candidate number keys (`number`, `height`, nested `block.number`)
and `base_fee_per_gas`.  `none` stands for an absent key or a value whose
`int(...)` conversion fails (both are skipped by the source's
`try`/`except`). -/
structure RawBlock where
  number : Option ℤ
  height : Option ℤ
  /-- `(b.get("block") or {}).get("number")`. -/
  blockNumber : Option ℤ
  base_fee_per_gas : Option ℤ

/-- A raw transaction item as returned by `get_block_transactions`;
`none` stands for an absent key (a malformed value makes the source skip
the whole item via `except: continue`, which no claim exercises). -/
structure RawTx where
  gas_price : Option ℤ
  max_fee_per_gas : Option ℤ
  max_priority_fee_per_gas : Option ℤ

/-- Python's `a or b` on optional integers: `None` and `0` are falsy. -/
def pyOrInt (a b : Option ℤ) : Option ℤ :=
  match a with
  | some x => if x = 0 then b else some x
  | none => b

/-- The block-number extraction
`b.get("number") or b.get("height") or (b.get("block") or {}).get("number")`
(transactions.py:252-258). -/
def blockNum (b : RawBlock) : Option ℤ :=
  pyOrInt b.number (pyOrInt b.height b.blockNumber)

/-- The `block_numbers` list accumulated over `recent_blocks`. -/
def blockNumbers (recent : List RawBlock) : List ℤ :=
  recent.filterMap blockNum

/-- The `base_fees` list accumulated over `recent_blocks`. -/
def baseFees (recent : List RawBlock) : List ℤ :=
  recent.filterMap RawBlock.base_fee_per_gas

/-- The `(block_number, limit)` arguments of the per-block transaction
fetches dispatched by `get_cohort_stats`
(`tasks = [self.get_block_transactions(n, limit=200) for n in block_numbers[:blocks]]`,
transactions.py:267). -/
def cohortFetchArgs (blocks : ℕ) (recent : List RawBlock) : List (ℤ × ℕ) :=
  ((blockNumbers recent).take blocks).map (fun n => (n, 200))

/-- The accumulation loop over the gathered per-block results
(transactions.py:269-273): extend, then break as soon as the global cap is
reached. -/
def accumGo (cap : ℕ) (acc : List RawTx) : List (List RawTx) → List RawTx
  | [] => acc
  | r :: rs =>
    let acc' := acc ++ r
    if cap ≤ acc'.length then acc' else accumGo cap acc' rs

/-- The `txs` list of `get_cohort_stats` after the loop and the final
`txs[:tx_cap]` truncation (transactions.py:266-274).  `fetch n limit`
stands for the awaited result of `get_block_transactions(n, limit=limit)`,
which is `[]` on any fetch failure. -/
def cohortTxs (blocks cap : ℕ) (recent : List RawBlock) (fetch : ℤ → ℕ → List RawTx) :
    List RawTx :=
  (accumGo cap [] ((cohortFetchArgs blocks recent).map (fun a => fetch a.1 a.2))).take cap

/-- `t.get("gas_price") or t.get("max_fee_per_gas")` (transactions.py:279). -/
def txEGP (t : RawTx) : Option ℤ :=
  pyOrInt t.gas_price t.max_fee_per_gas

/-- The `eGP_list` sample (effective gas prices) of `get_cohort_stats`. -/
def cohortEGP (blocks cap : ℕ) (recent : List RawBlock) (fetch : ℤ → ℕ → List RawTx) :
    List ℤ :=
  (cohortTxs blocks cap recent fetch).filterMap txEGP

/-- The `tip_list` sample (priority tips) of `get_cohort_stats`. -/
def cohortTip (blocks cap : ℕ) (recent : List RawBlock) (fetch : ℤ → ℕ → List RawTx) :
    List ℤ :=
  (cohortTxs blocks cap recent fetch).filterMap RawTx.max_priority_fee_per_gas

/-- The interpolation body of `p(v)` inside `pctls`
(transactions.py:292-295) as a function of the rank `k`: if `floor k`
equals `ceil k` return the order statistic there (`vals2[int(k)]`, and
`int(k) = floor k` for the non-negative `k` arising here), otherwise
interpolate linearly between the `floor k`-th and `ceil k`-th order
statistics. -/
def pInterp (vals2 : List ℤ) (k : ℚ) : ℚ :=
  if (⌊k⌋ : ℤ) = ⌈k⌉ then ((vals2.getD ⌊k⌋.toNat 0 : ℤ) : ℚ)
  else
    (vals2.getD ⌊k⌋.toNat 0 : ℚ) +
      ((vals2.getD ⌈k⌉.toNat 0 : ℚ) - (vals2.getD ⌊k⌋.toNat 0 : ℚ)) * (k - (⌊k⌋ : ℚ))

/-- The function `p(v)` inside `pctls` (transactions.py:291-295):
`k = (n-1)·v/100`, then interpolate between order statistics. -/
def pSub (vals2 : List ℤ) (v : ℚ) : ℚ :=
  pInterp vals2 (((vals2.length : ℚ) - 1) * v / 100)

/-- `pctls(vals)` (transactions.py:288-296): empty input yields the empty
map `{}` (modelled as `none`), otherwise the 50/80/95 percentiles of the
sorted sample.  (A sorted permutation of an integer list is unique, so any
sorting algorithm yields Python's `sorted(vals)`.) -/
def pctls (vals : List ℤ) : Option (ℚ × ℚ × ℚ) :=
  if vals.isEmpty then none
  else
    let vals2 := List.insertionSort (fun a b : ℤ => a ≤ b) vals
    some (pSub vals2 50, pSub vals2 80, pSub vals2 95)

/-- The `pctl` sub-dict of the returned cohort stats. -/
structure CohortPctl where
  eGP : Option (ℚ × ℚ × ℚ)
  tip : Option (ℚ × ℚ × ℚ)
deriving DecidableEq

/-- The dict returned by `get_cohort_stats`. -/
structure CohortStats where
  pctl : CohortPctl
  base_fee_last : Option ℤ
deriving DecidableEq

/-- `BlockscoutAPIClient.get_cohort_stats` (transactions.py:246-301) as a
function of the fetched raw data: `recent` is the awaited result of
`get_recent_blocks(limit=blocks)` (`[]` on any failure) and `fetch` the
awaited per-block transaction fetches (`[]` on any failure), so the
function itself never raises. -/
def get_cohort_stats (blocks cap : ℕ) (recent : List RawBlock)
    (fetch : ℤ → ℕ → List RawTx) : CohortStats :=
  { pctl :=
      { eGP := pctls (cohortEGP blocks cap recent fetch)
        tip := pctls (cohortTip blocks cap recent fetch) }
    base_fee_last := (baseFees recent).head? }

end BlockscoutAPIClient

/-- `max lo (min hi x)` — clamp `x` into `[lo, hi]`. -/
def clampQ (x lo hi : ℚ) : ℚ := max lo (min hi x)

/-- Modelled from the spec: the cohort-aware aggregator
`score_transaction_enhanced_v2` is invoked from `back/app/routes.py` but
its definition is absent from the available sources; §4.4's confidence
rule is transcribed here.  `presentCount` is the number of non-empty
signals among {effective price, tip, base fee, gasUsed, gasLimit,
interpreter verdict}; the denominator is 6 when the interpreter verdict
is present and 5 otherwise; 0.05 is subtracted (floored at 0.7) for each
of the two percentile maps the cohort lacks. -/
def spec_confidence (presentCount : ℕ) (interpPresent gasPctl tipPctl : Bool) : ℚ :=
  let denom : ℚ := if interpPresent then 6 else 5
  let base : ℚ := 0.7 + 0.3 * ((presentCount : ℚ) / denom)
  let c1 : ℚ := if gasPctl then base else max 0.7 (base - 0.05)
  if tipPctl then c1 else max 0.7 (c1 - 0.05)

/-- The confidence-bearing record §4.4 makes `ScoredTransaction` carry. -/
structure SpecV2Score where
  confidence : ℚ
  final_score : ℚ
  final_score_no_risk : ℚ

/-- Modelled from the spec: §4.4's aggregation for the missing
`score_transaction_enhanced_v2` —
`final_no_risk = clamp(0.35·e + 0.25·t + 0.10·s, 0, 100)` (never
confidence-adjusted), `final = clamp(final_no_risk + 0.30·r, 0, 100)`
then multiplied by the confidence and re-clamped. -/
def spec_v2_result (e t s r : ℚ) (presentCount : ℕ)
    (interpPresent gasPctl tipPctl : Bool) : SpecV2Score :=
  let conf := spec_confidence presentCount interpPresent gasPctl tipPctl
  let final_no_risk := clampQ (0.35 * e + 0.25 * t + 0.10 * s) 0 100
  let final0 := clampQ (0.35 * e + 0.25 * t + 0.10 * s + 0.30 * r) 0 100
  { confidence := conf
    final_score := clampQ (final0 * conf) 0 100
    final_score_no_risk := final_no_risk }

/-- The final-score formula exactly as the claim states it:
`0.35·economic + 0.25·technical + 0.10·strategic + 0.30·risk` clamped to
`[0, 100]` (for comparison against the source's aggregation). -/
def claim_final (e t s r : ℚ) : ℚ :=
  clampQ (0.35 * e + 0.25 * t + 0.10 * s + 0.30 * r) 0 100

/-- The risk bucket exactly as the claim states it: `r < 40 → "high"`,
`40 ≤ r < 70 → "medium"`, else `"low"` (for comparison against the
source's bucket). -/
def claim_risk_bucket (r : ℚ) : String :=
  if r < 40 then "high" else if r < 70 then "medium" else "low"

/-- A minimal concrete transaction: a zero-value, zero-gas-price legacy
transfer.  Its economic path evaluates `log1p` only at `0`. -/
def txA : Tx :=
  { hash := "0xabc"
    gasUsed := 0
    gasLimit := 21000
    gasPrice := 0
    valueEth := 0
    profitEth := none
    txType := 0
    transaction_types := none
    status := none
    isVerifiedContract := false
    isKnownProtocol := false
    isScam := false
    toAddr := ""
    created_contract := false
    has_error_in_internal_transactions := false
    maxPriorityFeePerGas := 0 }

/-- `txA` with a successful status. -/
def txOk : Tx := { txA with status := some "ok" }

/-- `txA` with `gasLimit = 0`. -/
def txGL0 : Tx := { txA with gasLimit := 0 }

/-- An empty enrichment bundle (every fetch failed or was skipped). -/
def apiEmpty : ApiData :=
  { address_info := none
    token_transfers := []
    transaction_details := none
    interpreter_data := none
    transaction_logs := [] }

/-- An enrichment bundle whose address info carries a non-numeric balance
string. -/
def apiBadBalance : ApiData :=
  { apiEmpty with
    address_info := some
      { balance := some "not_a_number"
        is_verified := false
        name := none
        public_tags := []
        is_scam := false
        reputation := none
        transactions_count := 0 } }

/-- Membership in the `[0, 100]` interval the specification asserts for
all sub-scores and final scores. -/
def scoreInRange (q : ℚ) : Prop := 0 ≤ q ∧ q ≤ 100

theorem clamp10_bounds (s : ℚ) : 0 ≤ max 0 (min 10 s) ∧ max 0 (min 10 s) ≤ 10 :=
  ⟨le_max_left 0 _, max_le (by norm_num) (min_le_left _ _)⟩

theorem pyRound2_mem10 {x : ℚ} (h0 : 0 ≤ x) (h1 : x ≤ 10) :
    0 ≤ pyRound2 x ∧ pyRound2 x ≤ 10 := by
  constructor
  · have := le_pyRound2 x 0 (by exact_mod_cast h0)
    exact_mod_cast this
  · have := pyRound2_le x 10 (by exact_mod_cast h1)
    exact_mod_cast this

theorem roundClamp10_mem (s : ℚ) :
    0 ≤ pyRound2 (min 10 (max 0 s)) ∧ pyRound2 (min 10 (max 0 s)) ≤ 10 :=
  pyRound2_mem10 (le_min (by norm_num) (le_max_left 0 s)) (min_le_left _ _)

theorem mem10_scoreInRange {q : ℚ} (h : 0 ≤ q ∧ q ≤ 10) : scoreInRange q :=
  ⟨h.1, le_trans h.2 (by norm_num)⟩

namespace TransactionScorer

theorem roi_score_mem (tx : Tx) : 0 ≤ roi_score tx ∧ roi_score tx ≤ 10 :=
  clamp10_bounds _

theorem gas_score_mem (m : LogModel) (tx : Tx) :
    0 ≤ gas_score m tx ∧ gas_score m tx ≤ 10 :=
  clamp10_bounds _

theorem economic_mem (m : LogModel) (tx : Tx) :
    0 ≤ economic_efficiency_score m tx ∧ economic_efficiency_score m tx ≤ 10 := by
  obtain ⟨h1, h2⟩ := roi_score_mem tx
  obtain ⟨h3, h4⟩ := gas_score_mem m tx
  exact pyRound2_mem10 (by nlinarith) (by nlinarith)

theorem efficiency_score_mem (tx : Tx) :
    4 ≤ efficiency_score tx ∧ efficiency_score tx ≤ 10 := by
  unfold efficiency_score
  split_ifs <;> norm_num

theorem eip_1559_bonus_mem (tx : Tx) :
    0 ≤ eip_1559_bonus tx ∧ eip_1559_bonus tx ≤ 2 := by
  unfold eip_1559_bonus
  split_ifs <;> norm_num

theorem type_bonus_mem (tx : Tx) : 0 ≤ type_bonus tx ∧ type_bonus tx ≤ 1 := by
  unfold type_bonus
  split_ifs <;> norm_num

theorem technical_mem (tx : Tx) :
    0 ≤ technical_efficiency_score tx ∧ technical_efficiency_score tx ≤ 10 := by
  obtain ⟨h1, h2⟩ := efficiency_score_mem tx
  obtain ⟨h3, h4⟩ := eip_1559_bonus_mem tx
  obtain ⟨h5, h6⟩ := type_bonus_mem tx
  refine pyRound2_mem10 ?_ (min_le_left _ _)
  exact le_min (by norm_num) (by linarith)

theorem risk_mem (tx : Tx) :
    0 ≤ risk_security_score tx ∧ risk_security_score tx ≤ 10 :=
  clamp10_bounds _

theorem strategic_mem (tx : Tx) :
    0 ≤ strategic_alignment_score tx ∧ strategic_alignment_score tx ≤ 10 := by
  unfold strategic_alignment_score
  simp only []
  split_ifs <;> norm_num

end TransactionScorer

namespace EnhancedTransactionScorer

theorem econ_finish_mem (tx : Tx) (tts : List TokenTransfer) (s : ℚ) :
    0 ≤ econ_finish tx tts s ∧ econ_finish tx tts s ≤ 10 :=
  roundClamp10_mem _

theorem enhanced_econ_mem (m : LogModel) (tx : Tx) (ai : Option AddressInfo)
    (tts : List TokenTransfer) (q : ℚ)
    (h : calculate_enhanced_economic_score m tx ai tts = Except.ok q) :
    0 ≤ q ∧ q ≤ 10 := by
  unfold calculate_enhanced_economic_score at h
  cases ai with
  | none =>
    simp only [Except.ok.injEq] at h
    exact h ▸ econ_finish_mem tx tts _
  | some a =>
    cases hp : pyInt (a.balance.getD "0") with
    | none =>
      simp only [hp] at h
      exact Except.noConfusion h
    | some bw =>
      simp only [hp, Except.ok.injEq] at h
      exact h ▸ econ_finish_mem tx tts _

theorem enhanced_tech_mem (tx : Tx) (td : Option TxDetails) (logs : List String) :
    0 ≤ calculate_enhanced_technical_score tx td logs ∧
      calculate_enhanced_technical_score tx td logs ≤ 10 :=
  roundClamp10_mem _

theorem enhanced_risk_mem (tx : Tx) (ai : Option AddressInfo) (td : Option TxDetails) :
    0 ≤ calculate_enhanced_risk_score tx ai td ∧
      calculate_enhanced_risk_score tx ai td ≤ 10 :=
  roundClamp10_mem _

theorem enhanced_strat_mem (tx : Tx) (tts : List TokenTransfer)
    (interp : Option InterpreterData) :
    0 ≤ calculate_enhanced_strategic_score tx tts interp ∧
      calculate_enhanced_strategic_score tx tts interp ≤ 10 :=
  roundClamp10_mem _

end EnhancedTransactionScorer

namespace BlockscoutAPIClient

theorem sorted_getD_mono (l : List ℤ) (hs : l.Pairwise (· ≤ ·)) (i j : ℕ)
    (hij : i ≤ j) (hj : j < l.length) : l.getD i 0 ≤ l.getD j 0 := by
  have hi : i < l.length := lt_of_le_of_lt hij hj
  rw [List.getD_eq_getElem l 0 hi, List.getD_eq_getElem l 0 hj]
  rcases eq_or_lt_of_le hij with rfl | hlt
  · exact le_refl _
  · exact List.pairwise_iff_getElem.mp hs i j hi hj hlt

theorem floor_toNat_lt (k : ℚ) (n : ℕ) (h0 : 0 ≤ k) (hk : k ≤ (n : ℚ) - 1) :
    ⌊k⌋.toNat < n := by
  have h1 : (⌊k⌋ : ℚ) ≤ (n : ℚ) - 1 := le_trans (Int.floor_le k) hk
  have h2 : ⌊k⌋ ≤ (n : ℤ) - 1 := by exact_mod_cast h1
  have h3 : 0 ≤ ⌊k⌋ := Int.le_floor.mpr (by exact_mod_cast h0)
  omega

theorem ceil_toNat_lt (k : ℚ) (n : ℕ) (h0 : 0 ≤ k) (hk : k ≤ (n : ℚ) - 1) :
    ⌈k⌉.toNat < n := by
  have h1 : ⌈k⌉ ≤ (n : ℤ) - 1 := Int.ceil_le.mpr (by exact_mod_cast hk)
  have h3 : 0 ≤ ⌊k⌋ := Int.le_floor.mpr (by exact_mod_cast h0)
  have h4 : ⌊k⌋ ≤ ⌈k⌉ := Int.floor_le_ceil k
  omega

/-- The interpolated value is at least the lower order statistic. -/
theorem pInterp_ge_floor (l : List ℤ) (hs : l.Pairwise (· ≤ ·)) (k : ℚ)
    (h0 : 0 ≤ k) (hk : k ≤ (l.length : ℚ) - 1) :
    ((l.getD ⌊k⌋.toNat 0 : ℤ) : ℚ) ≤ pInterp l k := by
  unfold pInterp
  split_ifs with hfc
  · exact le_refl _
  · have hf0 : 0 ≤ ⌊k⌋ := Int.le_floor.mpr (by exact_mod_cast h0)
    have hle : ⌊k⌋ ≤ ⌈k⌉ := Int.floor_le_ceil k
    have hmono : l.getD ⌊k⌋.toNat 0 ≤ l.getD ⌈k⌉.toNat 0 :=
      sorted_getD_mono l hs _ _ (by omega) (ceil_toNat_lt k l.length h0 hk)
    have hfr : 0 ≤ k - (⌊k⌋ : ℚ) := sub_nonneg.mpr (Int.floor_le k)
    have : (0 : ℚ) ≤ ((l.getD ⌈k⌉.toNat 0 : ℤ) : ℚ) - (l.getD ⌊k⌋.toNat 0 : ℤ) := by
      exact_mod_cast sub_nonneg.mpr hmono
    nlinarith

/-- The interpolated value is at most the upper order statistic. -/
theorem pInterp_le_ceil (l : List ℤ) (hs : l.Pairwise (· ≤ ·)) (k : ℚ)
    (h0 : 0 ≤ k) (hk : k ≤ (l.length : ℚ) - 1) :
    pInterp l k ≤ ((l.getD ⌈k⌉.toNat 0 : ℤ) : ℚ) := by
  unfold pInterp
  split_ifs with hfc
  · rw [hfc]
  · have hf0 : 0 ≤ ⌊k⌋ := Int.le_floor.mpr (by exact_mod_cast h0)
    have hle : ⌊k⌋ ≤ ⌈k⌉ := Int.floor_le_ceil k
    have hmono : l.getD ⌊k⌋.toNat 0 ≤ l.getD ⌈k⌉.toNat 0 :=
      sorted_getD_mono l hs _ _ (by omega) (ceil_toNat_lt k l.length h0 hk)
    have hfr1 : k - (⌊k⌋ : ℚ) < 1 := by
      have := Int.lt_floor_add_one k
      linarith
    have hd : (0 : ℚ) ≤ ((l.getD ⌈k⌉.toNat 0 : ℤ) : ℚ) - (l.getD ⌊k⌋.toNat 0 : ℤ) := by
      exact_mod_cast sub_nonneg.mpr hmono
    nlinarith

/-- Monotonicity of the interpolation in the rank `k`. -/
theorem pInterp_mono (l : List ℤ) (hs : l.Pairwise (· ≤ ·)) (k1 k2 : ℚ)
    (h0 : 0 ≤ k1) (h12 : k1 ≤ k2) (h2 : k2 ≤ (l.length : ℚ) - 1) :
    pInterp l k1 ≤ pInterp l k2 := by
  have h01 : 0 ≤ k2 := le_trans h0 h12
  have hk1 : k1 ≤ (l.length : ℚ) - 1 := le_trans h12 h2
  by_cases hf : ⌊k1⌋ = ⌊k2⌋
  · by_cases hint : (⌊k1⌋ : ℚ) = k1
    · have hfc : (⌊k1⌋ : ℤ) = ⌈k1⌉ := by
        rw [show ⌈k1⌉ = ⌈((⌊k1⌋ : ℤ) : ℚ)⌉ from by rw [hint], Int.ceil_intCast]
      have h1 : pInterp l k1 = ((l.getD ⌊k1⌋.toNat 0 : ℤ) : ℚ) := by
        unfold pInterp
        rw [if_pos hfc]
      rw [h1, hf]
      exact pInterp_ge_floor l hs k2 h01 h2
    · have hne1 : ¬((⌊k1⌋ : ℤ) = ⌈k1⌉) := by
        intro hEq
        apply hint
        have := Int.ceil_le.mp (le_of_eq hEq.symm)
        exact le_antisymm (Int.floor_le k1) (by exact_mod_cast this)
      have hne2 : ¬((⌊k2⌋ : ℤ) = ⌈k2⌉) := by
        intro hEq
        have hk2int : (⌊k2⌋ : ℚ) = k2 := by
          have h1 := Int.floor_le k2
          have h2' := Int.le_ceil k2
          rw [← hEq] at h2'
          exact le_antisymm h1 h2'
        have : k2 ≤ k1 := by
          rw [← hk2int, ← hf]
          exact Int.floor_le k1
        have hk12 : k1 = k2 := le_antisymm h12 this
        apply hint
        rw [hf, hk2int, hk12]
      unfold pInterp
      rw [if_neg hne1, if_neg hne2, ← hf]
      have hceq : ⌈k1⌉ = ⌈k2⌉ := by
        have hc1 : ⌈k1⌉ = ⌊k1⌋ + 1 := by
          have := Int.ceil_le_floor_add_one k1
          have h' := Int.floor_le_ceil k1
          omega
        have hc2 : ⌈k2⌉ = ⌊k2⌋ + 1 := by
          have := Int.ceil_le_floor_add_one k2
          have h' := Int.floor_le_ceil k2
          omega
        rw [hc1, hc2, hf]
      rw [← hceq]
      have hf0 : 0 ≤ ⌊k1⌋ := Int.le_floor.mpr (by exact_mod_cast h0)
      have hle : ⌊k1⌋ ≤ ⌈k1⌉ := Int.floor_le_ceil k1
      have hmono : l.getD ⌊k1⌋.toNat 0 ≤ l.getD ⌈k1⌉.toNat 0 :=
        sorted_getD_mono l hs _ _ (by omega) (ceil_toNat_lt k1 l.length h0 hk1)
      have hd : (0 : ℚ) ≤ ((l.getD ⌈k1⌉.toNat 0 : ℤ) : ℚ) - (l.getD ⌊k1⌋.toNat 0 : ℤ) := by
        exact_mod_cast sub_nonneg.mpr hmono
      nlinarith
  · have hlt : ⌊k1⌋ < ⌊k2⌋ := lt_of_le_of_ne (Int.floor_le_floor h12) hf
    have hf10 : 0 ≤ ⌊k1⌋ := Int.le_floor.mpr (by exact_mod_cast h0)
    have hc1le : ⌈k1⌉ ≤ ⌊k2⌋ := le_trans (Int.ceil_le_floor_add_one k1) (by omega)
    calc pInterp l k1 ≤ ((l.getD ⌈k1⌉.toNat 0 : ℤ) : ℚ) := pInterp_le_ceil l hs k1 h0 hk1
      _ ≤ ((l.getD ⌊k2⌋.toNat 0 : ℤ) : ℚ) := by
          have : l.getD ⌈k1⌉.toNat 0 ≤ l.getD ⌊k2⌋.toNat 0 := by
            refine sorted_getD_mono l hs _ _ ?_ (floor_toNat_lt k2 l.length h01 h2)
            have hc0 : 0 ≤ ⌈k1⌉ := le_trans hf10 (Int.floor_le_ceil k1)
            omega
          exact_mod_cast this
      _ ≤ pInterp l k2 := pInterp_ge_floor l hs k2 h01 h2

/-- Once the accumulation loop has reached the cap on a prefix of the
gathered results, appending further results changes nothing: the loop
`break`s. -/
theorem accumGo_nil (cap : ℕ) (acc : List RawTx) : accumGo cap acc [] = acc := rfl

theorem accumGo_cons (cap : ℕ) (acc r : List RawTx) (rs : List (List RawTx)) :
    accumGo cap acc (r :: rs) =
      if cap ≤ (acc ++ r).length then acc ++ r else accumGo cap (acc ++ r) rs := rfl

theorem accumGo_stop (cap : ℕ) (acc r : List RawTx) (rs rest : List (List RawTx))
    (h : cap ≤ (accumGo cap acc (r :: rs)).length) :
    accumGo cap acc ((r :: rs) ++ rest) = accumGo cap acc (r :: rs) := by
  induction rs generalizing acc r with
  | nil =>
    have h' : cap ≤ (acc ++ r).length := by
      by_cases hc : cap ≤ (acc ++ r).length
      · exact hc
      · rw [accumGo_cons, if_neg hc, accumGo_nil] at h
        exact absurd h hc
    show accumGo cap acc (r :: rest) = accumGo cap acc [r]
    rw [accumGo_cons, accumGo_cons, if_pos h', if_pos h']
  | cons r2 rs2 ih =>
    by_cases hc : cap ≤ (acc ++ r).length
    · show accumGo cap acc (r :: (r2 :: (rs2 ++ rest))) = accumGo cap acc (r :: r2 :: rs2)
      rw [accumGo_cons cap acc r (r2 :: (rs2 ++ rest)), accumGo_cons cap acc r (r2 :: rs2),
        if_pos hc, if_pos hc]
    · have h' : cap ≤ (accumGo cap (acc ++ r) (r2 :: rs2)).length := by
        rw [accumGo_cons cap acc r (r2 :: rs2), if_neg hc] at h
        exact h
      calc accumGo cap acc ((r :: r2 :: rs2) ++ rest)
          = accumGo cap (acc ++ r) ((r2 :: rs2) ++ rest) := by
            show accumGo cap acc (r :: (r2 :: (rs2 ++ rest))) = _
            rw [accumGo_cons cap acc r (r2 :: (rs2 ++ rest)), if_neg hc]
            rfl
        _ = accumGo cap (acc ++ r) (r2 :: rs2) := ih (acc ++ r) r2 h'
        _ = accumGo cap acc (r :: r2 :: rs2) := by
            rw [accumGo_cons cap acc r (r2 :: rs2), if_neg hc]

end BlockscoutAPIClient

namespace EnhancedTransactionScorer

/-- Shape of any `Except.ok` output of `score_transaction_enhanced`: its
fields are exactly the four sub-scorer results and the aggregations the
source computes from them. -/
theorem enhanced_ok_shape (m : LogModel) (tx : Tx) (api : ApiData)
    (out : EnhancedScoredTx)
    (h : score_transaction_enhanced m tx api = Except.ok out) :
    ∃ economic,
      calculate_enhanced_economic_score m tx api.address_info api.token_transfers =
          Except.ok economic ∧
      out = { tx_hash := tx.hash
              scores := ⟨economic,
                calculate_enhanced_technical_score tx api.transaction_details api.transaction_logs,
                calculate_enhanced_risk_score tx api.address_info api.transaction_details,
                calculate_enhanced_strategic_score tx api.token_transfers api.interpreter_data⟩
              final_score := pyRound2 (economic * 0.3 +
                calculate_enhanced_technical_score tx api.transaction_details api.transaction_logs * 0.2 +
                calculate_enhanced_risk_score tx api.address_info api.transaction_details * 0.3 +
                calculate_enhanced_strategic_score tx api.token_transfers api.interpreter_data * 0.2)
              final_score_no_risk := pyRound2 (economic * 0.4 +
                calculate_enhanced_technical_score tx api.transaction_details api.transaction_logs * 0.3 +
                calculate_enhanced_strategic_score tx api.token_transfers api.interpreter_data * 0.3)
              risk_level :=
                if calculate_enhanced_risk_score tx api.address_info api.transaction_details < 3
                then "high"
                else if calculate_enhanced_risk_score tx api.address_info api.transaction_details < 6
                then "medium" else "low" } := by
  unfold score_transaction_enhanced at h
  cases he : calculate_enhanced_economic_score m tx api.address_info api.token_transfers with
  | error e => rw [he] at h; exact absurd h (by simp)
  | ok economic =>
    rw [he] at h
    simp only [Except.ok.injEq] at h
    exact ⟨economic, rfl, h.symm⟩

end EnhancedTransactionScorer

/-! ## Claims -/

/-- **C4**: for every non-empty list of sampled values, the 50th, 80th and
95th percentile values computed by the cohort stats builder (linear
interpolation between order statistics at rank `(n−1)·p/100`) are
non-decreasing: `p50 ≤ p80 ≤ p95`. -/
theorem claim_c4_percentiles_monotone (vals : List ℤ) (h : vals ≠ []) :
    ∃ a b c, BlockscoutAPIClient.pctls vals = some (a, b, c) ∧ a ≤ b ∧ b ≤ c := by
  unfold BlockscoutAPIClient.pctls
  rw [if_neg (by simpa using h)]
  refine ⟨_, _, _, rfl, ?_, ?_⟩ <;>
    · unfold BlockscoutAPIClient.pSub
      have hs : (List.insertionSort (fun a b : ℤ => a ≤ b) vals).Pairwise (· ≤ ·) :=
        List.sorted_insertionSort _ vals
      have hlen : (List.insertionSort (fun a b : ℤ => a ≤ b) vals).length = vals.length :=
        List.length_insertionSort _ _
      have hn : (1 : ℚ) ≤ ((List.insertionSort (fun a b : ℤ => a ≤ b) vals).length : ℚ) := by
        have : 0 < vals.length := List.length_pos.mpr h
        rw [hlen]
        exact_mod_cast this
      refine BlockscoutAPIClient.pInterp_mono _ hs _ _ ?_ ?_ ?_ <;> nlinarith

/-- Witness for C4 at the concrete sample `[5, 1, 3]`. -/
theorem claim_c4_percentiles_monotone_witness :
    ∃ a b c, BlockscoutAPIClient.pctls [5, 1, 3] = some (a, b, c) ∧ a ≤ b ∧ b ≤ c :=
  claim_c4_percentiles_monotone [5, 1, 3] (by decide)

/-- **C5**: for every scoring batch, if the list of collected sample
values for a metric (effective gas price or priority tip) is empty,
`get_cohort_stats` returns an empty percentile map for that metric
(`none`, distinct from zero-valued percentiles); when every block fetch
fails (so the recent-blocks list is empty), it returns an empty
`CohortStats` — and, being a total function of the fetched data, it never
raises. -/
theorem claim_c5_empty_fallback (blocks cap : ℕ) (recent : List BlockscoutAPIClient.RawBlock)
    (fetch : ℤ → ℕ → List BlockscoutAPIClient.RawTx) :
    (BlockscoutAPIClient.cohortEGP blocks cap recent fetch = [] →
      (BlockscoutAPIClient.get_cohort_stats blocks cap recent fetch).pctl.eGP = none) ∧
    (BlockscoutAPIClient.cohortTip blocks cap recent fetch = [] →
      (BlockscoutAPIClient.get_cohort_stats blocks cap recent fetch).pctl.tip = none) ∧
    (recent = [] →
      BlockscoutAPIClient.get_cohort_stats blocks cap recent fetch =
        { pctl := { eGP := none, tip := none }, base_fee_last := none }) := by
  refine ⟨fun h => ?_, fun h => ?_, fun h => ?_⟩
  · show BlockscoutAPIClient.pctls (BlockscoutAPIClient.cohortEGP blocks cap recent fetch) = none
    rw [h]
    rfl
  · show BlockscoutAPIClient.pctls (BlockscoutAPIClient.cohortTip blocks cap recent fetch) = none
    rw [h]
    rfl
  · subst h
    unfold BlockscoutAPIClient.get_cohort_stats BlockscoutAPIClient.cohortEGP
      BlockscoutAPIClient.cohortTip BlockscoutAPIClient.cohortTxs
      BlockscoutAPIClient.cohortFetchArgs BlockscoutAPIClient.blockNumbers
      BlockscoutAPIClient.baseFees
    simp [BlockscoutAPIClient.pctls, BlockscoutAPIClient.accumGo_nil]

/-- Witness for C5: twelve-block, 600-transaction batch whose block fetch
failed entirely. -/
theorem claim_c5_empty_fallback_witness :
    BlockscoutAPIClient.get_cohort_stats 12 600 [] (fun _ _ => []) =
      { pctl := { eGP := none, tip := none }, base_fee_last := none } :=
  (claim_c5_empty_fallback 12 600 [] (fun _ _ => [])).2.2 rfl

/-- **C8**: for every `blockSampleSize` and every `txCap > 0`,
`get_cohort_stats` builds its percentile samples from at most `txCap`
transactions in total, requests at most 200 transactions per sampled
block (every dispatched fetch carries the literal limit 200), and stops
accumulating once the global cap is reached (once a prefix of the
gathered results reaches the cap, appending further results changes
nothing). -/
theorem claim_c8_txcap (blocks cap : ℕ) (recent : List BlockscoutAPIClient.RawBlock)
    (fetch : ℤ → ℕ → List BlockscoutAPIClient.RawTx) (_hcap : 0 < cap) :
    (BlockscoutAPIClient.cohortTxs blocks cap recent fetch).length ≤ cap ∧
    (∀ a ∈ BlockscoutAPIClient.cohortFetchArgs blocks recent, a.2 = 200) ∧
    (∀ (acc r : List BlockscoutAPIClient.RawTx) (rs rest : List (List BlockscoutAPIClient.RawTx)),
      cap ≤ (BlockscoutAPIClient.accumGo cap acc (r :: rs)).length →
      BlockscoutAPIClient.accumGo cap acc ((r :: rs) ++ rest) =
        BlockscoutAPIClient.accumGo cap acc (r :: rs)) := by
  refine ⟨?_, ?_, fun acc r rs rest h => BlockscoutAPIClient.accumGo_stop cap acc r rs rest h⟩
  · unfold BlockscoutAPIClient.cohortTxs
    simp [List.length_take]
  · intro a ha
    unfold BlockscoutAPIClient.cohortFetchArgs at ha
    obtain ⟨n, -, rfl⟩ := List.mem_map.mp ha
    rfl

/-- Witness for C8 at a concrete one-block batch with `txCap = 1`. -/
theorem claim_c8_txcap_witness :
    (BlockscoutAPIClient.cohortTxs 1 1 [⟨some 1, none, none, none⟩]
        (fun _ _ => [⟨none, none, none⟩])).length ≤ 1 ∧
    BlockscoutAPIClient.accumGo 1 [] ([[⟨none, none, none⟩]] ++ [[⟨none, none, none⟩]]) =
      BlockscoutAPIClient.accumGo 1 [] [[⟨none, none, none⟩]] := by
  have h := claim_c8_txcap 1 1 [⟨some 1, none, none, none⟩]
    (fun _ _ => [⟨none, none, none⟩]) (by decide)
  exact ⟨h.1, h.2.2 [] [⟨none, none, none⟩] [] [[⟨none, none, none⟩]] (by decide)⟩

/-- `int("not_a_number")` fails. -/
theorem pyInt_not_a_number : pyInt "not_a_number" = none := by decide

set_option maxHeartbeats 1000000 in
/-- `type_scores` always returns an integer value between 2 and 9. -/
theorem type_scores_int (s : String) :
    ∃ z : ℤ, EnhancedTransactionScorer.type_scores s = (z : ℚ) ∧ 2 ≤ z ∧ z ≤ 9 := by
  unfold EnhancedTransactionScorer.type_scores
  split_ifs
  exacts [⟨9, by norm_num⟩, ⟨9, by norm_num⟩, ⟨9, by norm_num⟩, ⟨8, by norm_num⟩,
    ⟨7, by norm_num⟩, ⟨6, by norm_num⟩, ⟨6, by norm_num⟩, ⟨6, by norm_num⟩,
    ⟨5, by norm_num⟩, ⟨5, by norm_num⟩, ⟨3, by norm_num⟩, ⟨2, by norm_num⟩, ⟨5, by norm_num⟩]

/-- An integer-valued lower bound survives the final clamp-and-round of
the strategic scorer. -/
theorem le_roundClamp_of_le (s b : ℚ) (z : ℤ) (hb : b = (z : ℚ)) (h9 : b ≤ 9) :
    b ≤ pyRound2 (min 10 (max 0 (max s b))) := by
  have h1 : b ≤ min 10 (max 0 (max s b)) :=
    le_min (by linarith) (le_trans (le_max_right s b) (le_max_right 0 _))
  rw [hb] at h1 ⊢
  exact le_pyRound2 _ z h1

/-- One confidence-degradation step of §4.4 stays inside `[0.7, 1]`. -/
theorem conf_step (b : Bool) (x : ℚ) (h0 : 0.7 ≤ x) (h1 : x ≤ 1) :
    0.7 ≤ (if b then x else max 0.7 (x - 0.05)) ∧
      (if b then x else max 0.7 (x - 0.05)) ≤ 1 := by
  cases b with
  | true => simpa using ⟨h0, h1⟩
  | false =>
    simp only [Bool.false_eq_true, if_false]
    exact ⟨le_max_left _ _, max_le (by norm_num) (by linarith)⟩

/-- Concrete run of the legacy scorer on `txA`. -/
theorem eval_legacy_txA :
    TransactionScorer.score_transaction logZero txA =
      { tx_hash := "0xabc", scores := ⟨3, 6, 5, 7⟩,
        final_score := 5, final_score_no_risk := 51/10 } := by
  norm_num +decide [TransactionScorer.score_transaction, TransactionScorer.economic_efficiency_score,
    TransactionScorer.roi_score, TransactionScorer.gas_score, TransactionScorer.roi,
    TransactionScorer.gas_efficiency, TransactionScorer.gas_cost_eth,
    TransactionScorer.technical_efficiency_score, TransactionScorer.efficiency_score,
    TransactionScorer.eip_1559_bonus, TransactionScorer.type_bonus,
    TransactionScorer.risk_security_score, TransactionScorer.strategic_alignment_score,
    gas_ratio, txA, logZero, pyRound2, bankersRound, Int.fract]

/-- Concrete run of the enhanced scorer on `txA` with an empty bundle. -/
theorem eval_enhanced_txA :
    EnhancedTransactionScorer.score_transaction_enhanced logZero txA apiEmpty =
      Except.ok { tx_hash := "0xabc", scores := ⟨8, 4, 5, 6⟩,
                  final_score := 59/10, final_score_no_risk := 31/5,
                  risk_level := "medium" } := by
  norm_num +decide [EnhancedTransactionScorer.score_transaction_enhanced,
    EnhancedTransactionScorer.calculate_enhanced_economic_score,
    EnhancedTransactionScorer.calculate_enhanced_technical_score,
    EnhancedTransactionScorer.calculate_enhanced_risk_score,
    EnhancedTransactionScorer.calculate_enhanced_strategic_score,
    EnhancedTransactionScorer.econ_finish, EnhancedTransactionScorer.type_scores,
    gas_ratio, txA, apiEmpty, logZero, pyRound2, bankersRound, Int.fract]

/-- Concrete run of the enhanced scorer on `txOk` with an empty bundle. -/
theorem eval_enhanced_txOk :
    EnhancedTransactionScorer.score_transaction_enhanced logZero txOk apiEmpty =
      Except.ok { tx_hash := "0xabc", scores := ⟨8, 5, 6, 6⟩,
                  final_score := 32/5, final_score_no_risk := 13/2,
                  risk_level := "low" } := by
  norm_num +decide [EnhancedTransactionScorer.score_transaction_enhanced,
    EnhancedTransactionScorer.calculate_enhanced_economic_score,
    EnhancedTransactionScorer.calculate_enhanced_technical_score,
    EnhancedTransactionScorer.calculate_enhanced_risk_score,
    EnhancedTransactionScorer.calculate_enhanced_strategic_score,
    EnhancedTransactionScorer.econ_finish, EnhancedTransactionScorer.type_scores,
    gas_ratio, txOk, txA, apiEmpty, logZero, pyRound2, bankersRound, Int.fract]

/-- **C1 (amended)**: the aggregation weights the source actually uses are
0.30/0.20/0.30/0.20 over economic/technical/risk/strategic for
`final_score` and 0.40/0.30/0.30 over economic/technical/strategic for
`final_score_no_risk` (sub-scores on the 0–10 scale, results rounded to
two decimals); both results already lie in `[0, 100]`, so no clamping is
applied or needed.  This holds for both `score_transaction` and
`score_transaction_enhanced`. -/
theorem claim_c1_aggregation_weights (m : LogModel) (tx : Tx) (api : ApiData) :
    ((TransactionScorer.score_transaction m tx).final_score =
        pyRound2 ((TransactionScorer.score_transaction m tx).scores.economic * 0.3 +
          (TransactionScorer.score_transaction m tx).scores.technical * 0.2 +
          (TransactionScorer.score_transaction m tx).scores.risk_security * 0.3 +
          (TransactionScorer.score_transaction m tx).scores.strategic * 0.2) ∧
      (TransactionScorer.score_transaction m tx).final_score_no_risk =
        pyRound2 ((TransactionScorer.score_transaction m tx).scores.economic * 0.4 +
          (TransactionScorer.score_transaction m tx).scores.technical * 0.3 +
          (TransactionScorer.score_transaction m tx).scores.strategic * 0.3) ∧
      scoreInRange (TransactionScorer.score_transaction m tx).final_score ∧
      scoreInRange (TransactionScorer.score_transaction m tx).final_score_no_risk) ∧
    (∀ out, EnhancedTransactionScorer.score_transaction_enhanced m tx api = Except.ok out →
      out.final_score = pyRound2 (out.scores.economic * 0.3 + out.scores.technical * 0.2 +
        out.scores.risk_security * 0.3 + out.scores.strategic * 0.2) ∧
      out.final_score_no_risk = pyRound2 (out.scores.economic * 0.4 +
        out.scores.technical * 0.3 + out.scores.strategic * 0.3) ∧
      scoreInRange out.final_score ∧ scoreInRange out.final_score_no_risk) := by
  constructor
  · obtain ⟨h1, h2⟩ := TransactionScorer.economic_mem m tx
    obtain ⟨h3, h4⟩ := TransactionScorer.technical_mem tx
    obtain ⟨h5, h6⟩ := TransactionScorer.risk_mem tx
    obtain ⟨h7, h8⟩ := TransactionScorer.strategic_mem tx
    exact ⟨rfl, rfl,
      mem10_scoreInRange (pyRound2_mem10 (by nlinarith) (by nlinarith)),
      mem10_scoreInRange (pyRound2_mem10 (by nlinarith) (by nlinarith))⟩
  · intro out h
    obtain ⟨economic, he, rfl⟩ := EnhancedTransactionScorer.enhanced_ok_shape m tx api out h
    obtain ⟨g1, g2⟩ := EnhancedTransactionScorer.enhanced_econ_mem m tx _ _ _ he
    obtain ⟨g3, g4⟩ := EnhancedTransactionScorer.enhanced_tech_mem tx api.transaction_details api.transaction_logs
    obtain ⟨g5, g6⟩ := EnhancedTransactionScorer.enhanced_risk_mem tx api.address_info api.transaction_details
    obtain ⟨g7, g8⟩ := EnhancedTransactionScorer.enhanced_strat_mem tx api.token_transfers api.interpreter_data
    exact ⟨rfl, rfl,
      mem10_scoreInRange (pyRound2_mem10 (by nlinarith) (by nlinarith)),
      mem10_scoreInRange (pyRound2_mem10 (by nlinarith) (by nlinarith))⟩

/-- Witness for C1 (amended) at `txA` / `apiEmpty`. -/
theorem claim_c1_aggregation_weights_witness :
    (TransactionScorer.score_transaction logZero txA).final_score =
      pyRound2 ((TransactionScorer.score_transaction logZero txA).scores.economic * 0.3 +
        (TransactionScorer.score_transaction logZero txA).scores.technical * 0.2 +
        (TransactionScorer.score_transaction logZero txA).scores.risk_security * 0.3 +
        (TransactionScorer.score_transaction logZero txA).scores.strategic * 0.2) ∧
    scoreInRange
      ({ tx_hash := "0xabc", scores := ⟨8, 4, 5, 6⟩, final_score := 59/10,
         final_score_no_risk := 31/5, risk_level := "medium" } :
        EnhancedTransactionScorer.EnhancedScoredTx).final_score := by
  have h := claim_c1_aggregation_weights logZero txA apiEmpty
  exact ⟨h.1.1, (h.2 _ eval_enhanced_txA).2.2.1⟩

/-- **C1 (counterexample)**: at `txA` the sub-scores are
(economic, technical, risk, strategic) = (3, 6, 5, 7) and the reported
final score is 5, but the claimed formula
`clamp(0.35·economic + 0.25·technical + 0.10·strategic + 0.30·risk)`
yields 4.75 ≠ 5. -/
theorem claim_c1_counterexample :
    (TransactionScorer.score_transaction logZero txA).scores =
      ⟨3, 6, 5, 7⟩ ∧
    (TransactionScorer.score_transaction logZero txA).final_score = 5 ∧
    claim_final 3 6 7 5 = 19/4 ∧
    (TransactionScorer.score_transaction logZero txA).final_score ≠
      claim_final (TransactionScorer.score_transaction logZero txA).scores.economic
        (TransactionScorer.score_transaction logZero txA).scores.technical
        (TransactionScorer.score_transaction logZero txA).scores.strategic
        (TransactionScorer.score_transaction logZero txA).scores.risk_security := by
  rw [eval_legacy_txA]
  refine ⟨rfl, rfl, ?_, ?_⟩ <;> norm_num [claim_final, clampQ]

/-- **C2**: every sub-score and final score produced by
`score_transaction` or `score_transaction_enhanced` lies in `[0, 100]`
(the source in fact keeps them in `[0, 10]`, a sub-interval). -/
theorem claim_c2_scores_in_range (m : LogModel) (tx : Tx) (api : ApiData) :
    (scoreInRange (TransactionScorer.score_transaction m tx).scores.economic ∧
     scoreInRange (TransactionScorer.score_transaction m tx).scores.technical ∧
     scoreInRange (TransactionScorer.score_transaction m tx).scores.risk_security ∧
     scoreInRange (TransactionScorer.score_transaction m tx).scores.strategic ∧
     scoreInRange (TransactionScorer.score_transaction m tx).final_score) ∧
    (∀ out, EnhancedTransactionScorer.score_transaction_enhanced m tx api = Except.ok out →
      scoreInRange out.scores.economic ∧ scoreInRange out.scores.technical ∧
      scoreInRange out.scores.risk_security ∧ scoreInRange out.scores.strategic ∧
      scoreInRange out.final_score) := by
  constructor
  · obtain ⟨h1, h2⟩ := TransactionScorer.economic_mem m tx
    obtain ⟨h3, h4⟩ := TransactionScorer.technical_mem tx
    obtain ⟨h5, h6⟩ := TransactionScorer.risk_mem tx
    obtain ⟨h7, h8⟩ := TransactionScorer.strategic_mem tx
    exact ⟨mem10_scoreInRange ⟨h1, h2⟩, mem10_scoreInRange ⟨h3, h4⟩,
      mem10_scoreInRange ⟨h5, h6⟩, mem10_scoreInRange ⟨h7, h8⟩,
      mem10_scoreInRange (pyRound2_mem10 (by nlinarith) (by nlinarith))⟩
  · intro out h
    obtain ⟨economic, he, rfl⟩ := EnhancedTransactionScorer.enhanced_ok_shape m tx api out h
    obtain ⟨g1, g2⟩ := EnhancedTransactionScorer.enhanced_econ_mem m tx _ _ _ he
    obtain ⟨g3, g4⟩ := EnhancedTransactionScorer.enhanced_tech_mem tx api.transaction_details api.transaction_logs
    obtain ⟨g5, g6⟩ := EnhancedTransactionScorer.enhanced_risk_mem tx api.address_info api.transaction_details
    obtain ⟨g7, g8⟩ := EnhancedTransactionScorer.enhanced_strat_mem tx api.token_transfers api.interpreter_data
    exact ⟨mem10_scoreInRange ⟨g1, g2⟩, mem10_scoreInRange ⟨g3, g4⟩,
      mem10_scoreInRange ⟨g5, g6⟩, mem10_scoreInRange ⟨g7, g8⟩,
      mem10_scoreInRange (pyRound2_mem10 (by nlinarith) (by nlinarith))⟩

/-- Witness for C2 at `txA` / `apiEmpty`. -/
theorem claim_c2_scores_in_range_witness :
    scoreInRange (TransactionScorer.score_transaction logZero txA).final_score ∧
    scoreInRange
      ({ tx_hash := "0xabc", scores := ⟨8, 4, 5, 6⟩, final_score := 59/10,
         final_score_no_risk := 31/5, risk_level := "medium" } :
        EnhancedTransactionScorer.EnhancedScoredTx).final_score := by
  have h := claim_c2_scores_in_range logZero txA apiEmpty
  exact ⟨h.1.2.2.2.2, (h.2 _ eval_enhanced_txA).2.2.2.2⟩

/-- **C3** (spec-modelled): the cohort-aware aggregator
`score_transaction_enhanced_v2` invoked from `routes.py` — the only code
that computes a confidence — is absent from the available sources, so its
§4.4 confidence rule is modelled by `spec_v2_result`.  Whenever the
signal-presence count is at most the number of expected signals, the
carried confidence lies in `[0.7, 1.0]`, the reported final score equals
the aggregated final score multiplied by that confidence and re-clamped
to `[0, 100]`, and `final_score_no_risk` equals a confidence-free clamp
of the weighted sum. -/
theorem claim_c3_spec_v2_confidence (e t s r : ℚ) (pc : ℕ) (ip gp tp : Bool)
    (h : (pc : ℚ) ≤ if ip then 6 else 5) :
    0.7 ≤ (spec_v2_result e t s r pc ip gp tp).confidence ∧
    (spec_v2_result e t s r pc ip gp tp).confidence ≤ 1 ∧
    (spec_v2_result e t s r pc ip gp tp).final_score =
      clampQ (clampQ (0.35 * e + 0.25 * t + 0.10 * s + 0.30 * r) 0 100 *
        (spec_v2_result e t s r pc ip gp tp).confidence) 0 100 ∧
    (spec_v2_result e t s r pc ip gp tp).final_score_no_risk =
      clampQ (0.35 * e + 0.25 * t + 0.10 * s) 0 100 := by
  have hd : (0 : ℚ) < if ip then 6 else 5 := by split_ifs <;> norm_num
  have h0 : (0 : ℚ) ≤ (pc : ℚ) / (if ip then 6 else 5) := div_nonneg (by positivity) hd.le
  have h1 : (pc : ℚ) / (if ip then 6 else 5) ≤ 1 := (div_le_one hd).mpr h
  have hb0 : (0.7 : ℚ) ≤ 0.7 + 0.3 * ((pc : ℚ) / (if ip then 6 else 5)) := by linarith
  have hb1 : 0.7 + 0.3 * ((pc : ℚ) / (if ip then 6 else 5)) ≤ 1 := by linarith
  obtain ⟨hc0, hc1⟩ := conf_step gp _ hb0 hb1
  obtain ⟨hd0, hd1⟩ := conf_step tp _ hc0 hc1
  exact ⟨hd0, hd1, rfl, rfl⟩

/-- Witness for C3 at concrete sub-scores (50, 60, 70, 80) with 3 of 5
signals present, gas percentiles present, tip percentiles missing. -/
theorem claim_c3_spec_v2_confidence_witness :
    0.7 ≤ (spec_v2_result 50 60 70 80 3 false true false).confidence ∧
    (spec_v2_result 50 60 70 80 3 false true false).confidence ≤ 1 ∧
    (spec_v2_result 50 60 70 80 3 false true false).final_score =
      clampQ (clampQ (0.35 * 50 + 0.25 * 60 + 0.10 * 70 + 0.30 * 80) 0 100 *
        (spec_v2_result 50 60 70 80 3 false true false).confidence) 0 100 ∧
    (spec_v2_result 50 60 70 80 3 false true false).final_score_no_risk =
      clampQ (0.35 * 50 + 0.25 * 60 + 0.10 * 70) 0 100 :=
  claim_c3_spec_v2_confidence 50 60 70 80 3 false true false (by norm_num)

/-- **C6 (amended)**: the risk bucket the source reports uses thresholds
3 and 6 on the 0–10 risk sub-score — `risk < 3 → "high"`,
`3 ≤ risk < 6 → "medium"`, else `"low"` — and it is evaluated on the
pre-aggregation risk sub-score, not the blended final score. -/
theorem claim_c6_risk_bucket (m : LogModel) (tx : Tx) (api : ApiData)
    (out : EnhancedTransactionScorer.EnhancedScoredTx)
    (h : EnhancedTransactionScorer.score_transaction_enhanced m tx api = Except.ok out) :
    out.risk_level =
      if out.scores.risk_security < 3 then "high"
      else if out.scores.risk_security < 6 then "medium" else "low" := by
  obtain ⟨economic, -, rfl⟩ := EnhancedTransactionScorer.enhanced_ok_shape m tx api out h
  rfl

/-- Witness for C6 (amended) at `txOk` / `apiEmpty` (risk sub-score 6). -/
theorem claim_c6_risk_bucket_witness :
    ("low" : String) = if (6 : ℚ) < 3 then "high" else if (6 : ℚ) < 6 then "medium" else "low" :=
  claim_c6_risk_bucket logZero txOk apiEmpty
    { tx_hash := "0xabc", scores := ⟨8, 5, 6, 6⟩, final_score := 32/5,
      final_score_no_risk := 13/2, risk_level := "low" } eval_enhanced_txOk

/-- **C6 (counterexample)**: scoring `txOk` against an empty bundle gives
risk sub-score 6 and bucket `"low"`, whereas the claimed thresholds
(40/70 on the risk sub-score) would make every 0–10-scale risk — and 6 in
particular — `"high"`. -/
theorem claim_c6_counterexample :
    EnhancedTransactionScorer.score_transaction_enhanced logZero txOk apiEmpty =
      Except.ok { tx_hash := "0xabc", scores := ⟨8, 5, 6, 6⟩, final_score := 32/5,
                  final_score_no_risk := 13/2, risk_level := "low" } ∧
    claim_risk_bucket 6 = "high" ∧
    ("low" : String) ≠ "high" := by
  refine ⟨eval_enhanced_txOk, by norm_num [claim_risk_bucket], by decide⟩

/-- **C7 (amended)**: when `gasLimit` is 0 (or negative) both technical
scorers use a gas-utilization ratio of **1**, not 0; the ratio is
`gasUsed / gasLimit` only when `gasLimit > 0`. -/
theorem claim_c7_gas_ratio (tx : Tx) :
    (tx.gasLimit ≤ 0 → gas_ratio tx = 1) ∧
    (0 < tx.gasLimit → gas_ratio tx = (tx.gasUsed : ℚ) / (tx.gasLimit : ℚ)) := by
  unfold gas_ratio
  constructor
  · intro h
    rw [if_neg (by omega)]
  · intro h
    rw [if_pos h]

/-- Witness for C7 (amended) at `txGL0` (gasLimit 0) and `txA`
(gasLimit 21000). -/
theorem claim_c7_gas_ratio_witness :
    gas_ratio txGL0 = 1 ∧ gas_ratio txA = (txA.gasUsed : ℚ) / (txA.gasLimit : ℚ) :=
  ⟨(claim_c7_gas_ratio txGL0).1 (by decide), (claim_c7_gas_ratio txA).2 (by decide)⟩

/-- **C7 (counterexample)**: at `txGL0` (`gasLimit = 0`) the ratio the
scorers use is 1, not 0; observably, the legacy technical score is 9
(ratio 1 falls in the `(0.9, 1.0]` bucket worth 7, plus the low-fee bonus
2) and the enhanced technical score is 6.5 (5 + 1.5 for the same bucket),
whereas a ratio of 0 would have produced 6 and 4 respectively. -/
theorem claim_c7_counterexample :
    gas_ratio txGL0 = 1 ∧ gas_ratio txGL0 ≠ 0 ∧
    TransactionScorer.technical_efficiency_score txGL0 = 9 ∧
    EnhancedTransactionScorer.calculate_enhanced_technical_score txGL0 none [] = 13/2 := by
  refine ⟨?_, ?_, ?_, ?_⟩ <;>
    norm_num +decide [TransactionScorer.technical_efficiency_score,
      TransactionScorer.efficiency_score, TransactionScorer.eip_1559_bonus,
      TransactionScorer.type_bonus,
      EnhancedTransactionScorer.calculate_enhanced_technical_score,
      gas_ratio, txGL0, txA, pyRound2, bankersRound, Int.fract]

/-- **C9**: the claim says a malformed enrichment value (a recipient
balance string that is not numeric) falls back to a default without
raising; the source instead calls `int(address_info.get("balance", "0"))`
unguarded, so scoring `txA` against `apiBadBalance` raises `ValueError`
(modelled as `Except.error`), contradicting the never-raise contract. -/
theorem claim_c9_malformed_balance_raises :
    EnhancedTransactionScorer.score_transaction_enhanced logZero txA apiBadBalance =
      Except.error "ValueError: invalid literal for int() with base 10" := by
  norm_num +decide [EnhancedTransactionScorer.score_transaction_enhanced,
    EnhancedTransactionScorer.calculate_enhanced_economic_score, apiBadBalance, txA,
    apiEmpty, pyInt_not_a_number]

/-- **C10**: with an empty token-transfer list and arbitrary interpreter
data, the enhanced strategic score is at least the fixed base score of the
transaction's type tag: the source takes `max(score, base_score)` before
the final clamp, and the base (an integer between 2 and 9) survives the
clamp-and-round. -/
theorem claim_c10_strategic_type_floor (tx : Tx) (interp : Option InterpreterData) :
    EnhancedTransactionScorer.type_scores
        ((tx.transaction_types.getD ["coin_transfer"]).headD "coin_transfer") ≤
      EnhancedTransactionScorer.calculate_enhanced_strategic_score tx [] interp := by
  obtain ⟨z, hz, -, hz9⟩ :=
    type_scores_int ((tx.transaction_types.getD ["coin_transfer"]).headD "coin_transfer")
  exact le_roundClamp_of_le _ _ z hz (by rw [hz]; exact_mod_cast hz9)
